import Mathlib

/-!
# Verification of `sbsevery` (src/src/main.rs)

A shallow embedding of the concurrent discovery-and-dispatch pipeline of
`sbsevery`: the Walker (`searcher` / `push_dir` / `push_file`), the
Dispatcher (`threader` and the join loop `wait`), the per-file worker
(`sign_file`) and the top-level driver (`main_prog` / `main`).

Modelling conventions:
* The mpsc channel is modelled by its delivered contents: the Walker
  functions return the list of paths successfully sent (in send order),
  and the Dispatcher (`threader`) consumes exactly that list, mirroring
  the mpsc guarantee that every sent value is received in order.  The
  flag `ro` ("receiver open") says whether the receiving end is still
  connected; `Sender::send` fails exactly when it is not, and once the
  receiver is gone it is gone for the whole run, so `ro` is constant.
* The filesystem seen by the Walker is a `Node` tree.  The only predicate
  the Rust code applies to a node is `is_dir()` (and `read_dir()` on
  directories); `FileKind` records what a non-directory node actually is
  (regular file, symlink, device, socket, fifo, or a nonexistent path)
  without influencing behaviour, exactly as in the source, where
  `push_file` never inspects the node.
* Diagnostic output (`dprintln!`, which prints to stderr only when
  verbose) and the error prints of the join loop are modelled as lists of
  strings in emission order.
* Subprocess behaviour is an oracle `Command → SpawnOutcome` passed to
  `sign_file`; thread-join behaviour is an oracle `Handle → JoinOutcome`
  passed to the driver.  Rust's `ExitStatus` is modelled by its exit
  code, with `success` meaning code zero.
* `i32` counters are modelled as `Int`; the claims are about counts far
  below any overflow boundary.
-/

namespace Sbsevery

/-- Exit status of a terminated subprocess (`std::process::ExitStatus`). -/
structure ExitStatus where
  code : Int
deriving DecidableEq, Repr

/-- `ExitStatus::success()`: a zero exit code. -/
def ExitStatus.success (s : ExitStatus) : Bool := s.code == 0

/-- An I/O error is identified by its display message (`eprintln!("{}", e)`). -/
abbrev IoErr := String

/-- Where a subprocess stream is directed: inherited or `Stdio::null()`. -/
inductive SinkMode where
  | inherited
  | nullSink
deriving DecidableEq, Repr

/-- `std::process::Command`: program, argument list, stream configuration. -/
structure Command where
  program : String
  args : List String
  stdoutCfg : SinkMode
  stderrCfg : SinkMode
deriving DecidableEq, Repr

/-- `Command::new(p)`: no args, streams inherited by default. -/
def Command.new (p : String) : Command :=
  { program := p, args := [], stdoutCfg := .inherited, stderrCfg := .inherited }

/-- `Command::arg`: append one argument. -/
def Command.arg (c : Command) (a : String) : Command :=
  { c with args := c.args ++ [a] }

/-- `Command::stdout(Stdio::...)`. -/
def Command.stdoutTo (c : Command) (m : SinkMode) : Command :=
  { c with stdoutCfg := m }

/-- `Command::stderr(Stdio::...)`. -/
def Command.stderrTo (c : Command) (m : SinkMode) : Command :=
  { c with stderrCfg := m }

/-- Behaviour of one attempted subprocess launch: either `spawn()` fails,
or the child runs and `wait()` yields a status or an I/O error. -/
inductive SpawnOutcome where
  | noSpawn (e : IoErr)
  | ran (res : Except IoErr ExitStatus)

/-- The command built by `sign_file`, mirroring the builder chain
`Command::new("sbsign").arg("--key").arg(key).arg("--cert").arg(cert)
.arg("--output").arg(file).arg(file).stdout(null).stderr(null)`. -/
def sign_file_cmd (file key cert : String) : Command :=
  ((((((((Command.new "sbsign").arg "--key").arg key).arg "--cert").arg
      cert).arg "--output").arg file).arg file).stdoutTo .nullSink |>.stderrTo .nullSink

/-- `sign_file`: print the verbose line, spawn `sbsign` with the fixed
argument shape, and return `child.wait()` (or the spawn error via `?`).
The first component is the diagnostic output, the second the
`Result<ExitStatus, io::Error>` the worker thread returns. -/
def sign_file (os : Command → SpawnOutcome) (file key cert : String)
    (verbose : Bool) : List String × Except IoErr ExitStatus :=
  let d := if verbose then [s!"signing:\t{file}"] else []
  match os (sign_file_cmd file key cert) with
  | .noSpawn e => (d, .error e)
  | .ran r => (d, r)

/-- What a non-directory filesystem node actually is.  The Rust code never
distinguishes these (it only calls `is_dir()`), so the kind does not
influence any function below. -/
inductive FileKind where
  | regular
  | symlink
  | device
  | socket
  | fifo
  | missing
deriving DecidableEq, Repr

/-- A filesystem node as the Walker observes it: a readable directory with
its entries, a directory whose `read_dir()` fails (permission denied), or
a non-directory node (`is_dir()` false) of some `FileKind`. -/
inductive Node where
  | dir (path : String) (entries : List Node)
  | deniedDir (path : String)
  | file (path : String) (kind : FileKind)

/-- The path of a node. -/
def Node.path : Node → String
  | .dir p _ => p
  | .deniedDir p => p
  | .file p _ => p

/-- `Path::is_dir()` on the node. -/
def Node.isDir : Node → Bool
  | .dir _ _ => true
  | .deniedDir _ => true
  | .file _ _ => false

/-- `push_file`: print `pushing:` when verbose, then `sx.send(...)?`.
Returns (paths sent, diagnostic lines, Ok?).  The send succeeds exactly
when the receiver is still open (`ro`). -/
def push_file (ro v : Bool) (p : String) : List String × List String × Bool :=
  (if ro then [p] else [], if v then [s!"pushing:\t{p}"] else [], ro)

mutual

/-- One node, as processed inside `push_dir`'s loop (and, for dir-like
nodes, `push_dir` itself): a directory prints `expanding:`, reads its
entries if it can (a failed `read_dir` is silently `Ok(())`), and walks
them with `?`-propagation; a non-directory goes through `push_file`. -/
def pushNode (ro v : Bool) : Node → List String × List String × Bool
  | .dir p es =>
      let d0 := if v then [s!"expanding:\t{p}"] else []
      let r := pushNodes ro v es
      (r.1, d0 ++ r.2.1, r.2.2)
  | .deniedDir p =>
      ([], if v then [s!"expanding:\t{p}"] else [], true)
  | .file p _ => push_file ro v p

/-- The `for entry in dir.flatten()` loop of `push_dir`: entries are
processed in order; the first send error aborts the rest of this
directory (the `?` operator). -/
def pushNodes (ro v : Bool) : List Node → List String × List String × Bool
  | [] => ([], [], true)
  | n :: ns =>
      let r1 := pushNode ro v n
      if r1.2.2 then
        let r2 := pushNodes ro v ns
        (r1.1 ++ r2.1, r1.2.1 ++ r2.2.1, r2.2.2)
      else (r1.1, r1.2.1, false)

end

/-- `searcher`: for each root, `push_dir` if `is_dir()` else `push_file`;
a per-root error is only reported via `dprintln!` and the loop moves on
to the next root.  Returns (paths sent, diagnostic lines). -/
def searcher (ro v : Bool) : List Node → List String × List String
  | [] => ([], [])
  | r :: rs =>
      let r1 := if r.isDir then pushNode ro v r else push_file ro v r.path
      let e1 : List String :=
        if r1.2.2 then []
        else if v then ["error:\tsending on a closed channel"] else []
      let r2 := searcher ro v rs
      (r1.1 ++ r2.1, r1.2.1 ++ e1 ++ r2.2)

/-- A worker handle: the closure data of the thread spawned by `threader`
for one received path. -/
structure Handle where
  file : String
  key : String
  cert : String
  verbose : Bool
deriving DecidableEq, Repr

/-- `threader`: `while let Ok(file) = rx.recv()` — one thread is spawned
and pushed per received path, in receive order.  The received sequence is
the list of paths the Walker successfully sent. -/
def threader (rxPaths : List String) (key cert : String) (v : Bool) :
    List Handle :=
  match rxPaths with
  | [] => []
  | p :: ps => { file := p, key := key, cert := cert, verbose := v } ::
      threader ps key cert v

/-- The result of `JoinHandle::join()` on one worker: either the thread
ran to completion and returned its `Result<ExitStatus, io::Error>`, or
the join itself failed (the thread panicked). -/
inductive JoinOutcome where
  | joined (res : Except IoErr ExitStatus)
  | panicked

/-- State after the `wait` loop: the final failure counter, the number of
handles joined (loop iterations — each handle is joined exactly once),
and the error lines printed to stderr, in order. -/
structure WaitResult where
  failures : Int
  joined : Nat
  errs : List String
deriving DecidableEq, Repr

/-- `wait`: `for t in threads { ... }`.  A joined `Ok(status)` bumps the
counter iff `!status.success()`; a joined `Err(e)` prints `e`; a failed
join prints `"Thread join failed"`; the loop always continues. -/
def wait (ts : List JoinOutcome) (failures : Int) : WaitResult :=
  match ts with
  | [] => { failures := failures, joined := 0, errs := [] }
  | t :: rest =>
      match t with
      | .joined (.ok status) =>
          let f2 := if status.success then failures else failures + 1
          let r := wait rest f2
          { failures := r.failures, joined := r.joined + 1, errs := r.errs }
      | .joined (.error e) =>
          let r := wait rest failures
          { failures := r.failures, joined := r.joined + 1, errs := e :: r.errs }
      | .panicked =>
          let r := wait rest failures
          { failures := r.failures, joined := r.joined + 1,
            errs := "Thread join failed" :: r.errs }

/-- `main_prog` after argument parsing (the CLI layer is out of scope):
walk the roots, spawn one worker per received path, join them all, and
end with the summary `eprintln!`.  `jb` resolves each worker handle to
its join outcome.  Returns the stderr lines of the dispatching thread
(join-loop error lines, then the summary) and whether the function
returned `Ok(())` — which it always does on this path. -/
def main_prog (roots : List Node) (key cert : String) (v : Bool)
    (jb : Handle → JoinOutcome) : List String × Bool :=
  let sent := (searcher true v roots).1
  let threads := threader sent key cert v
  let thread_count := threads.length
  let r := wait (threads.map jb) 0
  let f := r.failures
  (r.errs ++ [s!"ran {thread_count} threads with {f} failures"], true)

/-- `main`: exit code 1 when `main_prog` returns an error, 0 otherwise. -/
def main (roots : List Node) (key cert : String) (v : Bool)
    (jb : Handle → JoinOutcome) : Nat :=
  if (main_prog roots key cert v jb).2 then 0 else 1

/-- Specification-side rendering of the final `eprintln!("ran {} threads
with {} failures", ...)` summary. -/
def summary_line (n : Nat) (f : Int) : String :=
  s!"ran {n} threads with {f} failures"

/-- Specification-side count: how many join outcomes carry an observed
non-success exit status.  These are the only outcomes that bump the
failure counter in `wait`. -/
def countFail : List JoinOutcome → Int
  | [] => 0
  | .joined (.ok s) :: ts => (if s.success then 0 else 1) + countFail ts
  | .joined (.error _) :: ts => countFail ts
  | .panicked :: ts => countFail ts

/-- Specification-side transcript of the error lines `wait` prints. -/
def errLines : List JoinOutcome → List String
  | [] => []
  | .joined (.ok _) :: ts => errLines ts
  | .joined (.error e) :: ts => e :: errLines ts
  | .panicked :: ts => "Thread join failed" :: errLines ts

theorem wait_failures_eq (ts : List JoinOutcome) (f : Int) :
    (wait ts f).failures = f + countFail ts := by
  induction ts generalizing f with
  | nil => simp [wait, countFail]
  | cons t rest ih =>
      match t with
      | .joined (.ok s) =>
          by_cases h : s.success
          · simp [wait, countFail, h, ih]
          · simp [wait, countFail, h, ih]; ring
      | .joined (.error e) => simp [wait, countFail, ih]
      | .panicked => simp [wait, countFail, ih]

theorem wait_joined_eq (ts : List JoinOutcome) (f : Int) :
    (wait ts f).joined = ts.length := by
  induction ts generalizing f with
  | nil => simp [wait]
  | cons t rest ih =>
      match t with
      | .joined (.ok s) => simp [wait, ih]
      | .joined (.error e) => simp [wait, ih]
      | .panicked => simp [wait, ih]

theorem wait_errs_eq (ts : List JoinOutcome) (f : Int) :
    (wait ts f).errs = errLines ts := by
  induction ts generalizing f with
  | nil => simp [wait, errLines]
  | cons t rest ih =>
      match t with
      | .joined (.ok s) => simp [wait, errLines, ih]
      | .joined (.error e) => simp [wait, errLines, ih]
      | .panicked => simp [wait, errLines, ih]

theorem countFail_nonneg (ts : List JoinOutcome) : 0 ≤ countFail ts := by
  induction ts with
  | nil => simp [countFail]
  | cons t rest ih =>
      match t with
      | .joined (.ok s) =>
          by_cases h : s.success <;> simp [countFail, h] <;> omega
      | .joined (.error e) => simpa [countFail] using ih
      | .panicked => simpa [countFail] using ih

theorem countFail_le_length (ts : List JoinOutcome) :
    countFail ts ≤ ts.length := by
  induction ts with
  | nil => simp [countFail]
  | cons t rest ih =>
      match t with
      | .joined (.ok s) =>
          by_cases h : s.success <;> simp [countFail, h] <;> omega
      | .joined (.error e) => simp [countFail]; omega
      | .panicked => simp [countFail]; omega

theorem countFail_append (xs ys : List JoinOutcome) :
    countFail (xs ++ ys) = countFail xs + countFail ys := by
  induction xs with
  | nil => simp [countFail]
  | cons t rest ih =>
      match t with
      | .joined (.ok s) => simp [countFail, ih]; ring
      | .joined (.error e) => simpa [countFail] using ih
      | .panicked => simpa [countFail] using ih

theorem errLines_append (xs ys : List JoinOutcome) :
    errLines (xs ++ ys) = errLines xs ++ errLines ys := by
  induction xs with
  | nil => simp [errLines]
  | cons t rest ih =>
      match t with
      | .joined (.ok s) => simpa [errLines] using ih
      | .joined (.error e) => simp [errLines, ih]
      | .panicked => simp [errLines, ih]

theorem threader_length (ps : List String) (key cert : String) (v : Bool) :
    (threader ps key cert v).length = ps.length := by
  induction ps with
  | nil => simp [threader]
  | cons p rest ih => simp [threader, ih]

mutual

theorem pushNode_ok (v : Bool) (n : Node) : (pushNode true v n).2.2 = true :=
  match n with
  | .dir p es => by simp [pushNode, pushNodes_ok v es]
  | .deniedDir p => by simp [pushNode]
  | .file p k => by simp [pushNode, push_file]

theorem pushNodes_ok (v : Bool) (ns : List Node) :
    (pushNodes true v ns).2.2 = true :=
  match ns with
  | [] => by simp [pushNodes]
  | n :: rest => by simp [pushNodes, pushNode_ok v n, pushNodes_ok v rest]

end

mutual

theorem pushNode_sent_closed (v : Bool) (n : Node) :
    (pushNode false v n).1 = [] :=
  match n with
  | .dir p es => by simp [pushNode, pushNodes_sent_closed v es]
  | .deniedDir p => by simp [pushNode]
  | .file p k => by simp [pushNode, push_file]

theorem pushNodes_sent_closed (v : Bool) (ns : List Node) :
    (pushNodes false v ns).1 = [] :=
  match ns with
  | [] => by simp [pushNodes]
  | n :: rest => by
      by_cases h : (pushNode false v n).2.2 <;>
        simp [pushNodes, h, pushNode_sent_closed v n,
          pushNodes_sent_closed v rest]

end

mutual

theorem pushNode_quiet (ro : Bool) (n : Node) :
    (pushNode ro false n).2.1 = [] :=
  match n with
  | .dir p es => by simp [pushNode, pushNodes_quiet ro es]
  | .deniedDir p => by simp [pushNode]
  | .file p k => by simp [pushNode, push_file]

theorem pushNodes_quiet (ro : Bool) (ns : List Node) :
    (pushNodes ro false ns).2.1 = [] :=
  match ns with
  | [] => by simp [pushNodes]
  | n :: rest => by
      by_cases h : (pushNode ro false n).2.2 <;>
        simp [pushNodes, h, pushNode_quiet ro n, pushNodes_quiet ro rest]

end

theorem pushNodes_append_sent (v : Bool) (xs ys : List Node) :
    (pushNodes true v (xs ++ ys)).1 =
      (pushNodes true v xs).1 ++ (pushNodes true v ys).1 := by
  induction xs with
  | nil => simp [pushNodes]
  | cons n rest ih => simp [pushNodes, pushNode_ok v n, ih]

theorem searcher_sent_closed (v : Bool) (roots : List Node) :
    (searcher false v roots).1 = [] := by
  induction roots with
  | nil => simp [searcher]
  | cons r rest ih =>
      by_cases h : r.isDir <;>
        simp [searcher, h, push_file, pushNode_sent_closed v r, ih]

theorem searcher_quiet (ro : Bool) (roots : List Node) :
    (searcher ro false roots).2 = [] := by
  induction roots with
  | nil => simp [searcher]
  | cons r rest ih =>
      by_cases h : r.isDir <;>
        simp [searcher, h, push_file, pushNode_quiet ro r, ih]

/-- Claim C1: every path the Walker sends yields exactly one spawned
worker (`threader` pushes one handle per received path), and the join
loop joins each handle exactly once, so the number of outcomes collected
equals the number of workers started — for every join behaviour,
including workers that failed to launch the subprocess. -/
theorem claim_C1 (roots : List Node) (key cert : String) (v : Bool)
    (jb : Handle → JoinOutcome) :
    (threader (searcher true v roots).1 key cert v).length
        = (searcher true v roots).1.length
    ∧ (wait ((threader (searcher true v roots).1 key cert v).map jb)
          0).joined
        = (threader (searcher true v roots).1 key cert v).length := by
  refine ⟨threader_length _ _ _ _, ?_⟩
  rw [wait_joined_eq, List.length_map]

/-- Claim C2: a worker whose subprocess terminated with an observed exit
status contributes zero to the failure counter when the status is a
success and exactly one when it is not, wherever it sits among the
joined handles and whatever the counter already holds. -/
theorem claim_C2 (xs ys : List JoinOutcome) (s : ExitStatus) (f : Int) :
    (wait (xs ++ JoinOutcome.joined (Except.ok s) :: ys) f).failures
      = (wait (xs ++ ys) f).failures + (if s.success then 0 else 1) := by
  by_cases h : s.success
  · rw [wait_failures_eq, wait_failures_eq, countFail_append,
      countFail_append]
    simp [countFail, h]
  · rw [wait_failures_eq, wait_failures_eq, countFail_append,
      countFail_append]
    simp [countFail, h]
    ring

/-- Claim C3 is false on the code: a worker that reports a launch or
wait error (`Err(e)` from `sign_file`) leaves the failure counter
untouched — with one such worker and counter 0, the counter stays 0, not
the 1 the claim requires. -/
theorem claim_C3_counterexample :
    (wait [JoinOutcome.joined
        (Except.error "No such file or directory (os error 2)")]
      0).failures = 0
    ∧ (wait [JoinOutcome.joined
        (Except.error "No such file or directory (os error 2)")]
      0).failures ≠ 1 := by
  constructor <;> decide

/-- Claim C3 (amended): a worker whose signing attempt ends in a launch
or wait error contributes zero (not one) to the aggregate failure count;
its error message is printed to stderr, and the join loop still joins
that handle and all the others (neither error crashes the Dispatcher or
any other worker). -/
theorem claim_C3 (xs ys : List JoinOutcome) (e : IoErr) (f : Int) :
    (wait (xs ++ JoinOutcome.joined (Except.error e) :: ys) f).failures
        = (wait (xs ++ ys) f).failures
    ∧ (wait (xs ++ JoinOutcome.joined (Except.error e) :: ys) f).joined
        = (wait (xs ++ ys) f).joined + 1
    ∧ e ∈ (wait (xs ++ JoinOutcome.joined (Except.error e) :: ys) f).errs := by
  refine ⟨?_, ?_, ?_⟩
  · rw [wait_failures_eq, wait_failures_eq, countFail_append,
      countFail_append]
    simp [countFail]
  · rw [wait_joined_eq, wait_joined_eq]
    simp
    omega
  · rw [wait_errs_eq, errLines_append]
    simp [errLines]

/-- Claim C4 is false on the code: a handle whose join fails leaves the
failure counter untouched — with one panicked worker and counter 0, the
counter stays 0, not the 1 the claim requires. -/
theorem claim_C4_counterexample :
    (wait [JoinOutcome.panicked] 0).failures = 0
    ∧ (wait [JoinOutcome.panicked] 0).failures ≠ 1 := by
  constructor <;> decide

/-- Claim C4 (amended): a handle whose join fails contributes zero (not
one) to the aggregate failure count; `"Thread join failed"` is printed
to stderr, and the join loop still proceeds to join all remaining
handles. -/
theorem claim_C4 (xs ys : List JoinOutcome) (f : Int) :
    (wait (xs ++ JoinOutcome.panicked :: ys) f).failures
        = (wait (xs ++ ys) f).failures
    ∧ (wait (xs ++ JoinOutcome.panicked :: ys) f).joined
        = (wait (xs ++ ys) f).joined + 1
    ∧ "Thread join failed" ∈ (wait (xs ++ JoinOutcome.panicked :: ys) f).errs := by
  refine ⟨?_, ?_, ?_⟩
  · rw [wait_failures_eq, wait_failures_eq, countFail_append,
      countFail_append]
    simp [countFail]
  · rw [wait_joined_eq, wait_joined_eq]
    simp
    omega
  · rw [wait_errs_eq, errLines_append]
    simp [errLines]

/-- Claim C10: the aggregate failure count reported at the end of a run
is never negative and never exceeds the number of workers started: the
join loop increments the counter at most once per handle. -/
theorem claim_C10 (roots : List Node) (key cert : String) (v : Bool)
    (jb : Handle → JoinOutcome) :
    0 ≤ (wait ((threader (searcher true v roots).1 key cert v).map jb)
          0).failures
    ∧ (wait ((threader (searcher true v roots).1 key cert v).map jb)
          0).failures
        ≤ (threader (searcher true v roots).1 key cert v).length := by
  rw [wait_failures_eq]
  constructor
  · simpa using countFail_nonneg _
  · have h := countFail_le_length
      ((threader (searcher true v roots).1 key cert v).map jb)
    simpa using h

/-- Claim C5 is false on the code: a root that does not exist is not
skipped — `is_dir()` is false for it, so `searcher` takes the
`push_file` branch and sends the path, and one worker is started for
that root instead of zero. -/
theorem claim_C5_counterexample :
    (searcher true false [Node.file "/nonexistent" FileKind.missing]).1
      = ["/nonexistent"]
    ∧ (threader
        (searcher true false [Node.file "/nonexistent" FileKind.missing]).1
        "DB.key" "DB.crt" false).length ≠ 0 := by
  constructor <;> decide

/-- Claim C5 (amended): a root that does not exist is treated like any
non-directory: exactly its own path is emitted, so exactly one worker is
started for that root; the remaining roots are walked exactly as they
would be otherwise and the run still completes. -/
theorem claim_C5 (v : Bool) (p : String) (roots : List Node) :
    (searcher true v (Node.file p FileKind.missing :: roots)).1
      = p :: (searcher true v roots).1 := by
  simp [searcher, Node.isDir, Node.path, push_file]

/-- Claim C6 is false on the code: the walk tests only `is_dir()`, so a
special file (here a fifo) inside a directory is emitted like a regular
file, not skipped. -/
theorem claim_C6_counterexample :
    (searcher true false
        [Node.dir "/d" [Node.file "/d/pipe" FileKind.fifo]]).1
      = ["/d/pipe"]
    ∧ (searcher true false
        [Node.dir "/d" [Node.file "/d/pipe" FileKind.fifo]]).1 ≠ [] := by
  constructor <;> decide

/-- Claim C6 (amended): a permission-denied directory yields no emission
and the walk continues with the rest of the tree; but symlinks and
special files are not skipped — every non-directory node is emitted
exactly like a regular file, whatever its kind. -/
theorem claim_C6 (v : Bool) (p q : String) (k : FileKind)
    (xs ys : List Node) :
    (pushNode true v (Node.file p k)).1 = [p]
    ∧ (pushNodes true v (xs ++ Node.deniedDir q :: ys)).1
        = (pushNodes true v (xs ++ ys)).1 := by
  constructor
  · simp [pushNode, push_file]
  · rw [pushNodes_append_sent, pushNodes_append_sent]
    simp [pushNodes, pushNode]

/-- Claim C7: the worker builds exactly the command
`sbsign --key <key> --cert <cert> --output <file> <file>` with stdout and
stderr nulled, and its outcome is exactly the subprocess's wait result
when the child spawned, or the spawn error otherwise. -/
theorem claim_C7 (file key cert : String) :
    sign_file_cmd file key cert
      = { program := "sbsign",
          args := ["--key", key, "--cert", cert, "--output", file, file],
          stdoutCfg := SinkMode.nullSink, stderrCfg := SinkMode.nullSink }
    ∧ (∀ os v r, os (sign_file_cmd file key cert) = SpawnOutcome.ran r →
        (sign_file os file key cert v).2 = r)
    ∧ (∀ os v e, os (sign_file_cmd file key cert) = SpawnOutcome.noSpawn e →
        (sign_file os file key cert v).2 = Except.error e) := by
  refine ⟨rfl, ?_, ?_⟩
  · intro os v r h
    simp [sign_file, h]
  · intro os v e h
    simp [sign_file, h]

/-- Witness for C7 at a concrete file, key, cert and a subprocess oracle
that exits 0. -/
theorem claim_C7_witness :
    ((fun _ => SpawnOutcome.ran (Except.ok (ExitStatus.mk 0)))
        (sign_file_cmd "/efi/b" "k" "c")
      = SpawnOutcome.ran (Except.ok (ExitStatus.mk 0)))
    ∧ (sign_file (fun _ => SpawnOutcome.ran (Except.ok (ExitStatus.mk 0)))
        "/efi/b" "k" "c" false).2 = Except.ok (ExitStatus.mk 0) :=
  ⟨rfl, (claim_C7 "/efi/b" "k" "c").2.1 _ false _ rfl⟩

/-- Claim C8 is false on the code: with the receiver gone and verbose on,
the failed send is reported on the diagnostic stream (`error:` line), and
the Walker does not stop — it goes on to the next root (the `expanding:`
line below follows the error line). -/
theorem claim_C8_counterexample :
    (searcher false true
        [Node.file "/a" FileKind.regular, Node.deniedDir "/d"]).2
      = ["pushing:\t/a", "error:\tsending on a closed channel",
          "expanding:\t/d"]
    ∧ "error:\tsending on a closed channel"
        ∈ (searcher false true
            [Node.file "/a" FileKind.regular, Node.deniedDir "/d"]).2 := by
  constructor <;> decide

/-- Claim C8 (amended): when the receiving end has gone away every send
fails, so the Walker emits no path for any root (end of input for the
Dispatcher) and the run does not crash; each root's walk is cut short at
its first failed send, though the remaining roots are still visited, and
the error is reported only on the diagnostic stream when verbose is on —
with verbose off the Walker is silent. -/
theorem claim_C8 (v : Bool) (roots : List Node) :
    (searcher false v roots).1 = []
    ∧ (searcher false false roots).2 = [] :=
  ⟨searcher_sent_closed v roots, searcher_quiet false roots⟩

/-- Claim C9: after all workers are joined, the dispatching thread's
stderr ends with exactly one summary line reporting the number of
workers started and the failure count, and `main_prog` returns `Ok(())`
for every join behaviour — so a non-zero failure count never changes the
exit code, which is 0. -/
theorem claim_C9 (roots : List Node) (key cert : String) (v : Bool)
    (jb : Handle → JoinOutcome) :
    (main_prog roots key cert v jb).2 = true
    ∧ main roots key cert v jb = 0
    ∧ (main_prog roots key cert v jb).1.getLast?
        = some (summary_line
            (threader (searcher true v roots).1 key cert v).length
            (wait ((threader (searcher true v roots).1 key cert v).map jb)
              0).failures) := by
  refine ⟨rfl, rfl, ?_⟩
  simp [main_prog, summary_line]

end Sbsevery
